import Mathlib

/-!
Shallow embedding of the iruastro Vedic-astrology computation core.

Longitudes, degrees and instants are modelled as exact rationals; the
JavaScript remainder operator on numbers is modelled by `jsMod` (remainder of
truncated division, carrying the sign of the dividend), `Math.floor` by
`Int.floor`, and JavaScript integer remainders by `Int.tmod` / `Nat.mod` on
the corresponding values.  Each embedded function is translated from one
source function and keeps its name, suffixed with the source file when the
repository holds several differing copies.  String-table lookups (sign and
mansion names, bilingual labels) are dropped; indices and enumerated types
stand for them.
-/

namespace Iruastro

/-- Truncation toward zero of a rational, as JavaScript truncates the
quotient when evaluating the `%` operator on numbers. -/
def jsTrunc (q : ℚ) : ℤ := if 0 ≤ q then ⌊q⌋ else ⌈q⌉

/-- JavaScript remainder `a % b`: remainder of truncated division; the result
carries the sign of the dividend. -/
def jsMod (a b : ℚ) : ℚ := a - b * jsTrunc (a / b)

/-- The normalization `((x % 360) + 360) % 360` used at every call site in the
sources to bring a longitude into the canonical range `[0, 360)`. -/
def norm360 (x : ℚ) : ℚ := jsMod (jsMod x 360 + 360) 360

/-- House computation of `getHouse` in src/netlify/utils/astronomical.ts:
`Math.floor(((normalizedLongitude - normalizedAscendant + 360) % 360) / 30) + 1`. -/
def getHouse_astro (longitude ascendantLongitude : ℚ) : ℤ :=
  let normalizedLongitude := norm360 longitude
  let normalizedAscendant := norm360 ascendantLongitude
  ⌊jsMod (normalizedLongitude - normalizedAscendant + 360) 360 / 30⌋ + 1

/-- House computation of `getHouse` in src/unnamed/part_000, lines 45-53;
textually the same algorithm as the astronomical.ts copy. -/
def getHouse_part000 (longitude ascendantLongitude : ℚ) : ℤ :=
  let normalizedLongitude := norm360 longitude
  let normalizedAscendant := norm360 ascendantLongitude
  ⌊jsMod (normalizedLongitude - normalizedAscendant + 360) 360 / 30⌋ + 1

/-- House computation of `getHouse` in src/netlify/functions/yoga.ts, lines
309-322: the difference of the two sign indices, shifted into range. -/
def getHouse_yoga (longitude ascendantLongitude : ℚ) : ℤ :=
  let normalizedLongitude := norm360 longitude
  let normalizedAscendant := norm360 ascendantLongitude
  let relativePosition := ⌊normalizedLongitude / 30⌋ - ⌊normalizedAscendant / 30⌋
  let relativePosition := if relativePosition < 0 then relativePosition + 12 else relativePosition
  let house := relativePosition + 1
  (house - 1 + 12).tmod 12 + 1

/-- Modelled from the spec: the claimed house invariant
`house = ((floor(L/30) - floor(A/30) + 12) mod 12) + 1`, written from the
specification text in order to compare it with the implementations. -/
def specHouseFormula (longitude ascendantLongitude : ℚ) : ℤ :=
  (⌊longitude / 30⌋ - ⌊ascendantLongitude / 30⌋ + 12) % 12 + 1

/-- Aspect classification labels of the transit calculator in
src/netlify/utils/astronomical.ts. -/
inductive AspectType
  | conjunction
  | opposition
  | trine
  | square
  | sextile
deriving DecidableEq

/-- The `checkAspect` function of src/netlify/utils/astronomical.ts, lines
850-861: classifies the raw absolute difference of two longitudes against the
five aspect angles with a fixed 8-degree orb. -/
def checkAspect (deg1 deg2 : ℚ) : Option AspectType :=
  let angle := |deg1 - deg2|
  let orb : ℚ := 8
  if |angle| < orb ∨ |angle - 360| < orb then some AspectType.conjunction
  else if |angle - 180| < orb then some AspectType.opposition
  else if |angle - 120| < orb then some AspectType.trine
  else if |angle - 90| < orb then some AspectType.square
  else if |angle - 60| < orb then some AspectType.sextile
  else none

/-- Modelled from the spec: the angular separation of two longitudes on the
360-degree circle (the smaller of the two arcs), used to state that two
bodies are placed "exactly 90 degrees apart" on the circle. -/
def circularSeparation (a b : ℚ) : ℚ := min (norm360 (a - b)) (norm360 (b - a))

/-- Starting-offset table of `calculateNavamsha` in src/unnamed/part_002:
the object literal keyed by `signGroup`, with the `?? 0` fallback for keys
outside 0-11. -/
def padaOffset (signGroup : ℤ) : ℤ :=
  if signGroup = 0 then 0
  else if signGroup = 1 then 9
  else if signGroup = 2 then 6
  else if signGroup = 3 then 3
  else if signGroup = 4 then 0
  else if signGroup = 5 then 9
  else if signGroup = 6 then 6
  else if signGroup = 7 then 3
  else if signGroup = 8 then 0
  else if signGroup = 9 then 9
  else if signGroup = 10 then 6
  else if signGroup = 11 then 3
  else 0

/-- The `calculateNavamsha` function of src/unnamed/part_002, lines 141-167:
maps a sidereal longitude to its D9 (Navamsha) sign index through the
3-degree-20 pada subdivision and the per-sign starting offset. -/
def calculateNavamsha (longitude : ℚ) : ℤ :=
  let rashi := ⌊longitude / 30⌋
  let degInRashi := jsMod longitude 30
  let padaLength : ℚ := 10 / 3
  let padaNum := ⌊degInRashi / padaLength⌋
  let signGroup := rashi.tmod 12
  (padaOffset signGroup + padaNum).tmod 12

/-- A D9 position: divisional sign index and degree within that sign, as
produced by the Navamsha calculator of src/unnamed/part_002. -/
structure D9Position where
  rashiIndex : ℤ
  degree : ℚ
deriving DecidableEq

/-- The `calculateD9Position` function of src/unnamed/part_002: sidereal
reduction followed by the pada-based Navamsha mapping and the rescaling of
the pada-internal position to a 30-degree span. -/
def calculateD9Position (longitude ayanamsa : ℚ) : D9Position :=
  let siderealLong := jsMod (longitude - ayanamsa + 360) 360
  let rashiIndex := calculateNavamsha siderealLong
  let degInRashi := jsMod siderealLong 30
  let padaLength : ℚ := 10 / 3
  let degInPada := jsMod degInRashi padaLength
  let degree := degInPada / padaLength * 30
  ⟨rashiIndex, degree⟩

/-- The `calculateNodeD9Position` function nested in the handler of
src/unnamed/part_002, lines 330-342: the source computes `rashi` and
`navamshaNum` but does not use them, and returns the hardcoded sign index 2
(Gemini) with the scaled pada-internal degree. -/
def calculateNodeD9Position (longitude : ℚ) : D9Position :=
  let rashi := ⌊longitude / 30⌋
  let degInRashi := jsMod longitude 30
  let navamshaLength : ℚ := 10 / 3
  let navamshaNum := ⌊degInRashi / navamshaLength⌋
  ⟨2, jsMod degInRashi navamshaLength * 9⟩

/-- Rahu's D9 position as built in the handler of src/unnamed/part_002,
lines 344-348: sign index `(ketuD9.rashiIndex + 6) % 12`, same degree. -/
def rahuD9FromKetu (ketuD9 : D9Position) : D9Position :=
  ⟨(ketuD9.rashiIndex + 6).tmod 12, ketuD9.degree⟩

/-- Numeric part of a lunar-mansion placement: mansion index and pada. -/
structure NakshatraNum where
  nakshatraIndex : ℤ
  pada : ℤ
deriving DecidableEq

/-- The `getNakshatra` function of src/netlify/utils/astronomical.ts, lines
505-521 (numeric part): mansion index by floor division, pada from the
fractional progress through the mansion, clamped into 1..4 by
`Math.min(Math.max(..., 1), 4)`. -/
def getNakshatra_astro (moonLongitude ayanamsa : ℚ) : NakshatraNum :=
  let siderealLong := moonLongitude - ayanamsa
  let normalizedLong := norm360 siderealLong
  let nakshatraIndex := ⌊normalizedLong * 27 / 360⌋
  let nakshatraProgress := jsMod (normalizedLong * 27) 360 / (360 / 27)
  let pada := min (max (⌊jsMod nakshatraProgress 1 * 4⌋ + 1) 1) 4
  ⟨nakshatraIndex, pada⟩

/-- The `getNakshatra` function of src/unnamed/part_001, lines 57-65 (numeric
part): mansion index as above, but the pada is
`Math.floor((normalizedLong * 27 % 360) / (360/27/4)) + 1` with no clamp. -/
def getNakshatra_part001 (moonLongitude ayanamsa : ℚ) : NakshatraNum :=
  let siderealLong := moonLongitude - ayanamsa
  let normalizedLong := norm360 siderealLong
  ⟨⌊normalizedLong * 27 / 360⌋,
    ⌊jsMod (normalizedLong * 27) 360 / (360 / 27 / 4)⌋ + 1⟩

/-- The nine Vimshottari Dasha planets of src/netlify/functions/dasha.ts
(the `PlanetName` type there). -/
inductive PlanetName
  | Ketu
  | Venus
  | Sun
  | Moon
  | Mars
  | Rahu
  | Jupiter
  | Saturn
  | Mercury
deriving DecidableEq, BEq

/-- The `dashaPeriods` table of src/netlify/functions/dasha.ts, lines 37-48:
Vimshottari Dasha duration of each planet, in years. -/
def dashaPeriods : PlanetName → ℚ
  | PlanetName.Ketu => 7
  | PlanetName.Venus => 20
  | PlanetName.Sun => 6
  | PlanetName.Moon => 10
  | PlanetName.Mars => 7
  | PlanetName.Rahu => 18
  | PlanetName.Jupiter => 16
  | PlanetName.Saturn => 19
  | PlanetName.Mercury => 17

/-- The `planetSequence` list of src/netlify/functions/dasha.ts, lines 51-54. -/
def planetSequence : List PlanetName :=
  [PlanetName.Ketu, PlanetName.Venus, PlanetName.Sun, PlanetName.Moon, PlanetName.Mars,
    PlanetName.Rahu, PlanetName.Jupiter, PlanetName.Saturn, PlanetName.Mercury]

/-- The 27-slot `lords` table inside `getNakshatraLord` of
src/netlify/functions/dasha.ts, lines 140-147. -/
def lords27 : List PlanetName :=
  [PlanetName.Ketu, PlanetName.Venus, PlanetName.Sun, PlanetName.Moon, PlanetName.Mars,
    PlanetName.Rahu, PlanetName.Jupiter, PlanetName.Saturn, PlanetName.Mercury,
    PlanetName.Ketu, PlanetName.Venus, PlanetName.Sun, PlanetName.Moon, PlanetName.Mars,
    PlanetName.Rahu, PlanetName.Jupiter, PlanetName.Saturn, PlanetName.Mercury,
    PlanetName.Ketu, PlanetName.Venus, PlanetName.Sun, PlanetName.Moon, PlanetName.Mars,
    PlanetName.Rahu, PlanetName.Jupiter, PlanetName.Saturn, PlanetName.Mercury]

/-- The `getNakshatraLord` function of src/netlify/functions/dasha.ts, lines
138-149.  The JavaScript array lookup is undefined outside 0..26; the `getD`
default stands for that case and is never reached for degrees in `[0, 360)`. -/
def getNakshatraLord (deg : ℚ) : PlanetName :=
  lords27.getD (⌊deg * 27 / 360⌋).toNat PlanetName.Ketu

/-- An Antardasha entry of src/netlify/functions/dasha.ts (the numeric part
of the `DashaPeriod` record): planet and period bounds on a rational time
axis measured in years. -/
structure Period where
  planet : PlanetName
  startDate : ℚ
  endDate : ℚ
deriving DecidableEq

/-- The body of the `for` loop of `calculateAntarDasha` in
src/netlify/functions/dasha.ts, lines 202-218, with the loop counter carried
as remaining fuel plus the current index `i` and the running `currentDate`. -/
def antarGo (startIndex : ℕ) (totalPeriod : ℚ) : ℕ → ℕ → ℚ → List Period
  | 0, _, _ => []
  | fuel + 1, i, currentDate =>
    let planet := planetSequence.getD ((startIndex + i) % 9) PlanetName.Ketu
    let periodYears := dashaPeriods planet / 120 * totalPeriod
    ⟨planet, currentDate, currentDate + periodYears⟩ ::
      antarGo startIndex totalPeriod fuel (i + 1) (currentDate + periodYears)

/-- The `calculateAntarDasha` function of src/netlify/functions/dasha.ts,
lines 193-221: nine proportional sub-periods of the enclosing Mahadasha,
starting from the Mahadasha lord in the fixed sequence. -/
def calculateAntarDasha (startDate endDate : ℚ) (mahadashaLord : PlanetName) : List Period :=
  let totalPeriod := endDate - startDate
  let startIndex := planetSequence.indexOf mahadashaLord
  antarGo startIndex totalPeriod 9 0 startDate

/-- A Mahadasha entry of src/netlify/functions/dasha.ts (numeric part of the
`DashaPeriod` record, with its nested `antardasha` list). -/
structure MahaPeriod where
  planet : PlanetName
  startDate : ℚ
  endDate : ℚ
  antardasha : List Period
deriving DecidableEq

/-- The body of the `for` loop of `calculateDashaPeriods` in
src/netlify/functions/dasha.ts, lines 169-188: the first period (`i = 0`)
gets the remaining years of the current lord, later ones the full table
duration of their planet. -/
def mahaGo (startIndex : ℕ) (remainingYears : ℚ) : ℕ → ℕ → ℚ → List MahaPeriod
  | 0, _, _ => []
  | fuel + 1, i, currentDate =>
    let planet := planetSequence.getD ((startIndex + i) % 9) PlanetName.Ketu
    let periodYears := if i = 0 then remainingYears else dashaPeriods planet
    ⟨planet, currentDate, currentDate + periodYears,
        calculateAntarDasha currentDate (currentDate + periodYears) planet⟩ ::
      mahaGo startIndex remainingYears fuel (i + 1) (currentDate + periodYears)

/-- The `calculateDashaPeriods` function of src/netlify/functions/dasha.ts,
lines 151-191: nine contiguous Mahadasha periods from the birth instant,
driven by the Moon's sidereal degree.  The source also computes `nakshatra`
without using it further; it is kept here. -/
def calculateDashaPeriods (birthDate : ℚ) (moonDegree : ℚ) : List MahaPeriod :=
  let nakshatra := ⌊moonDegree * 27 / 360⌋
  let progressInNakshatra := jsMod (moonDegree * 27 / 360) 1
  let currentLord := getNakshatraLord moonDegree
  let startIndex := planetSequence.indexOf currentLord
  let remainingYears := dashaPeriods currentLord * (1 - progressInNakshatra)
  mahaGo startIndex remainingYears 9 0 birthDate

/-- Contiguity of a period list from a starting instant: the first period
starts there, and every later period starts where its predecessor ends. -/
def contiguousFrom : ℚ → List Period → Prop
  | _, [] => True
  | t, p :: ps => p.startDate = t ∧ contiguousFrom p.endDate ps

/-- Contiguity for the Mahadasha level. -/
def contiguousFromMaha : ℚ → List MahaPeriod → Prop
  | _, [] => True
  | t, p :: ps => p.startDate = t ∧ contiguousFromMaha p.endDate ps

/-- Total span covered by a list of periods. -/
def spanSum (l : List Period) : ℚ := (l.map (fun p => p.endDate - p.startDate)).sum

/-- Request location as the handlers see it after JSON parsing: each
coordinate is `some` rational when the field is a number, `none` when it is
missing or not a number. -/
structure ReqLocation where
  latitude : Option ℚ
  longitude : Option ℚ
deriving DecidableEq

/-- The request fields the validation code of the chart handlers reads:
presence of `dob` and `time`, and the optional location. -/
structure ChartRequest where
  hasDob : Bool
  hasTime : Bool
  location : Option ReqLocation
deriving DecidableEq

/-- Outcome of a handler run on a parseable body: either an early rejection
with a status code and itemized error messages, or the fall-through into the
astronomical computation. -/
inductive HandlerOutcome
  | rejected (status : ℕ) (errors : List String)
  | computed
deriving DecidableEq

/-- The validation block of the birth-chart handler in
src/netlify/utils/astronomical.ts, lines 620-631: presence checks for `dob`
and `time`, and a number-type check (only) on the coordinates. -/
def birthchartValidationErrors (r : ChartRequest) : List String :=
  (if !r.hasDob then ["dob is required"] else []) ++
  (if !r.hasTime then ["time is required"] else []) ++
  (match r.location with
    | none => ["Valid location.latitude and location.longitude are required"]
    | some loc =>
      if loc.latitude.isNone ∨ loc.longitude.isNone then
        ["Valid location.latitude and location.longitude are required"]
      else [])

/-- The early part of the birth-chart handler of
src/netlify/utils/astronomical.ts, lines 616-637: reject with 400 when the
validation block found errors, otherwise continue into the computation. -/
def birthchartHandler (r : ChartRequest) : HandlerOutcome :=
  let errors := birthchartValidationErrors r
  if errors.length > 0 then HandlerOutcome.rejected 400 errors else HandlerOutcome.computed

/-- The validation block of the handler in src/unnamed/part_001, lines
151-160: presence checks, number-type checks, and range checks on the
coordinates.  A JavaScript comparison on an undefined field is false, so the
range checks fire only when the coordinate is a number. -/
def part001ValidationErrors (r : ChartRequest) : List String :=
  (if !r.hasDob then ["dob is required"] else []) ++
  (if !r.hasTime then ["time is required"] else []) ++
  (match r.location with
    | none => ["location is required"]
    | some loc =>
      (match loc.latitude with
        | none => ["location.latitude must be a number"]
        | some _ => []) ++
      (match loc.longitude with
        | none => ["location.longitude must be a number"]
        | some _ => []) ++
      (match loc.latitude with
        | some v => if v < -90 ∨ v > 90 then ["latitude must be between -90 and 90"] else []
        | none => []) ++
      (match loc.longitude with
        | some v => if v < -180 ∨ v > 180 then ["longitude must be between -180 and 180"] else []
        | none => []))

/-- The early part of the handler of src/unnamed/part_001, lines 149-167:
reject with 400 when the validation block found errors. -/
def part001Handler (r : ChartRequest) : HandlerOutcome :=
  let errors := part001ValidationErrors r
  if errors.length > 0 then HandlerOutcome.rejected 400 errors else HandlerOutcome.computed

/-- The twelve zodiac signs (`standardRashi` values) of
src/netlify/utils/astronomical.ts. -/
inductive Sign
  | Aries
  | Taurus
  | Gemini
  | Cancer
  | Leo
  | Virgo
  | Libra
  | Scorpio
  | Sagittarius
  | Capricorn
  | Aquarius
  | Pisces
deriving DecidableEq

/-- The seven classical planets (the `PlanetName` type of the birth-chart
part of src/netlify/utils/astronomical.ts). -/
inductive Planet7
  | Sun
  | Moon
  | Mars
  | Mercury
  | Jupiter
  | Venus
  | Saturn
deriving DecidableEq

/-- Dignity labels returned by `getDignity` of
src/netlify/utils/astronomical.ts. -/
inductive Dignity
  | Exalted
  | Debilitated
  | OwnSign
  | Friendly
  | Enemy
deriving DecidableEq

/-- The `planetaryRulers` table of src/netlify/utils/astronomical.ts, lines
366-374 (primary ruled sign of each planet). -/
def planetaryRulers : Planet7 → Sign
  | Planet7.Sun => Sign.Leo
  | Planet7.Moon => Sign.Cancer
  | Planet7.Mars => Sign.Aries
  | Planet7.Mercury => Sign.Gemini
  | Planet7.Jupiter => Sign.Sagittarius
  | Planet7.Venus => Sign.Taurus
  | Planet7.Saturn => Sign.Capricorn

/-- The `planetaryExaltation` table of src/netlify/utils/astronomical.ts,
lines 376-384. -/
def planetaryExaltation : Planet7 → Sign
  | Planet7.Sun => Sign.Aries
  | Planet7.Moon => Sign.Taurus
  | Planet7.Mars => Sign.Capricorn
  | Planet7.Mercury => Sign.Virgo
  | Planet7.Jupiter => Sign.Cancer
  | Planet7.Venus => Sign.Pisces
  | Planet7.Saturn => Sign.Libra

/-- The `planetaryDebilitation` table of src/netlify/utils/astronomical.ts,
lines 386-394. -/
def planetaryDebilitation : Planet7 → Sign
  | Planet7.Sun => Sign.Libra
  | Planet7.Moon => Sign.Scorpio
  | Planet7.Mars => Sign.Cancer
  | Planet7.Mercury => Sign.Pisces
  | Planet7.Jupiter => Sign.Capricorn
  | Planet7.Venus => Sign.Virgo
  | Planet7.Saturn => Sign.Aries

/-- The `planetaryFriendships` table of src/netlify/utils/astronomical.ts,
lines 396-404. -/
def planetaryFriendships : Planet7 → List Planet7
  | Planet7.Sun => [Planet7.Moon, Planet7.Mars, Planet7.Jupiter]
  | Planet7.Moon => [Planet7.Sun, Planet7.Mercury]
  | Planet7.Mars => [Planet7.Sun, Planet7.Moon, Planet7.Jupiter]
  | Planet7.Mercury => [Planet7.Sun, Planet7.Venus]
  | Planet7.Jupiter => [Planet7.Sun, Planet7.Moon, Planet7.Mars]
  | Planet7.Venus => [Planet7.Mercury, Planet7.Saturn]
  | Planet7.Saturn => [Planet7.Mercury, Planet7.Venus]

/-- Insertion order of `Object.entries(planetaryRulers)` in the source, used
by the friendly-sign lookup. -/
def planetEntries : List Planet7 :=
  [Planet7.Sun, Planet7.Moon, Planet7.Mars, Planet7.Mercury,
    Planet7.Jupiter, Planet7.Venus, Planet7.Saturn]

/-- The decision chain of `getDignity` in src/netlify/utils/astronomical.ts,
lines 443-482, abstracted over the four dignity tables so that the priority
order can be stated for arbitrary (also synthetic) table contents: exaltation,
then debilitation, then own sign (primary ruled sign or one of the hardcoded
secondary rulerships), then friendship with the ruler of the occupied sign,
else enemy/neutral.  The bilingual name translation that precedes this chain
in the source resolves sign names to the `Sign` values used here. -/
def getDignityT (exaltT debilT rulerT : Planet7 → Sign) (friendT : Planet7 → List Planet7)
    (planet : Planet7) (standardRashi : Sign) : Dignity :=
  if exaltT planet = standardRashi then Dignity.Exalted
  else if debilT planet = standardRashi then Dignity.Debilitated
  else if rulerT planet = standardRashi ∨
      (planet = Planet7.Mars ∧ standardRashi = Sign.Scorpio) ∨
      (planet = Planet7.Mercury ∧ standardRashi = Sign.Virgo) ∨
      (planet = Planet7.Jupiter ∧ standardRashi = Sign.Pisces) ∨
      (planet = Planet7.Venus ∧ standardRashi = Sign.Libra) ∨
      (planet = Planet7.Saturn ∧ standardRashi = Sign.Aquarius) then Dignity.OwnSign
  else
    match planetEntries.find? (fun p => decide (rulerT p = standardRashi)) with
    | some signRuler =>
      if signRuler ∈ friendT planet then Dignity.Friendly else Dignity.Enemy
    | none => Dignity.Enemy

/-- The `getDignity` function of src/netlify/utils/astronomical.ts, lines
410-483, on the repository's actual tables. -/
def getDignity : Planet7 → Sign → Dignity :=
  getDignityT planetaryExaltation planetaryDebilitation planetaryRulers planetaryFriendships

lemma jsMod_nonneg {a b : ℚ} (hb : 0 < b) (ha : 0 ≤ a) : 0 ≤ jsMod a b := by
  have hq : 0 ≤ a / b := div_nonneg ha hb.le
  have h1 : (⌊a / b⌋ : ℚ) ≤ a / b := Int.floor_le _
  have h2 : (⌊a / b⌋ : ℚ) * b ≤ a := (le_div_iff₀ hb).mp h1
  unfold jsMod jsTrunc
  rw [if_pos hq]
  nlinarith

lemma jsMod_lt {a b : ℚ} (hb : 0 < b) (ha : 0 ≤ a) : jsMod a b < b := by
  have hq : 0 ≤ a / b := div_nonneg ha hb.le
  have h1 : a / b < ⌊a / b⌋ + 1 := Int.lt_floor_add_one _
  have h2 : a < (⌊a / b⌋ + 1) * b := (div_lt_iff₀ hb).mp h1
  unfold jsMod jsTrunc
  rw [if_pos hq]
  nlinarith

lemma jsMod_nonpos {a b : ℚ} (hb : 0 < b) (ha : a < 0) : jsMod a b ≤ 0 := by
  have hq : ¬ 0 ≤ a / b := by
    rw [not_le]
    exact div_neg_of_neg_of_pos ha hb
  have h1 : a / b ≤ ⌈a / b⌉ := Int.le_ceil _
  have h2 : a ≤ (⌈a / b⌉ : ℚ) * b := (div_le_iff₀ hb).mp h1
  unfold jsMod jsTrunc
  rw [if_neg hq]
  nlinarith

lemma neg_lt_jsMod {a b : ℚ} (hb : 0 < b) (ha : a < 0) : -b < jsMod a b := by
  have hq : ¬ 0 ≤ a / b := by
    rw [not_le]
    exact div_neg_of_neg_of_pos ha hb
  have h1 : (⌈a / b⌉ : ℚ) < a / b + 1 := Int.ceil_lt_add_one _
  have h2 : (⌈a / b⌉ : ℚ) * b < (a / b + 1) * b := by
    exact mul_lt_mul_of_pos_right h1 hb
  have h3 : (a / b + 1) * b = a + b := by
    field_simp
  unfold jsMod jsTrunc
  rw [if_neg hq]
  nlinarith

lemma jsMod_sub_int (a b : ℚ) : ∃ k : ℤ, jsMod a b = a - b * k :=
  ⟨jsTrunc (a / b), rfl⟩

lemma norm360_nonneg (x : ℚ) : 0 ≤ norm360 x := by
  unfold norm360
  apply jsMod_nonneg (by norm_num)
  rcases le_or_lt 0 x with h | h
  · have := jsMod_nonneg (a := x) (b := 360) (by norm_num) h
    linarith
  · have := neg_lt_jsMod (a := x) (b := 360) (by norm_num) h
    linarith

lemma norm360_lt (x : ℚ) : norm360 x < 360 := by
  unfold norm360
  apply jsMod_lt (by norm_num)
  rcases le_or_lt 0 x with h | h
  · have := jsMod_nonneg (a := x) (b := 360) (by norm_num) h
    linarith
  · have := neg_lt_jsMod (a := x) (b := 360) (by norm_num) h
    linarith

lemma norm360_sub_int (x : ℚ) : ∃ k : ℤ, norm360 x = x - 360 * k := by
  obtain ⟨k1, h1⟩ := jsMod_sub_int x 360
  obtain ⟨k2, h2⟩ := jsMod_sub_int (jsMod x 360 + 360) 360
  refine ⟨k1 + k2 - 1, ?_⟩
  rw [norm360, h2, h1]
  push_cast
  ring

lemma norm360_eq_self {x : ℚ} (h0 : 0 ≤ x) (h1 : x < 360) : norm360 x = x := by
  obtain ⟨k, hk⟩ := norm360_sub_int x
  have b0 := norm360_nonneg x
  have b1 := norm360_lt x
  have hq1 : (k : ℚ) < 1 := by
    rw [hk] at b0
    linarith
  have hq0 : (-1 : ℚ) < (k : ℚ) := by
    rw [hk] at b1
    linarith
  have hk1 : k < 1 := by exact_mod_cast hq1
  have hk0 : (-1 : ℤ) < k := by exact_mod_cast hq0
  have : k = 0 := by omega
  rw [hk, this]
  push_cast
  ring

lemma norm360_eq_add {x : ℚ} (h0 : -360 ≤ x) (h1 : x < 0) : norm360 x = x + 360 := by
  obtain ⟨k, hk⟩ := norm360_sub_int x
  have b0 := norm360_nonneg x
  have b1 := norm360_lt x
  have hq1 : (k : ℚ) < 0 := by
    rw [hk] at b0
    nlinarith
  have hq0 : (-2 : ℚ) < (k : ℚ) := by
    rw [hk] at b1
    linarith
  have hk1 : k < 0 := by exact_mod_cast hq1
  have hk0 : (-2 : ℤ) < k := by exact_mod_cast hq0
  have : k = -1 := by omega
  rw [hk, this]
  push_cast
  ring

lemma floor_norm360_div30 (x : ℚ) :
    ∃ k : ℤ, ⌊norm360 x / 30⌋ = ⌊x / 30⌋ - 12 * k ∧
      0 ≤ ⌊norm360 x / 30⌋ ∧ ⌊norm360 x / 30⌋ ≤ 11 := by
  obtain ⟨k, hk⟩ := norm360_sub_int x
  refine ⟨k, ?_, ?_, ?_⟩
  · rw [hk]
    have h : (x - 360 * k) / 30 = x / 30 - ((12 * k : ℤ) : ℚ) := by
      push_cast
      ring
    rw [h, Int.floor_sub_int]
  · exact Int.floor_nonneg.mpr (div_nonneg (norm360_nonneg x) (by norm_num))
  · have h : norm360 x / 30 < ((12 : ℤ) : ℚ) := by
      have := norm360_lt x
      rw [div_lt_iff₀ (by norm_num : (0:ℚ) < 30)]
      push_cast
      linarith
    have := Int.floor_lt.mpr h
    omega

lemma getHouse_yoga_eq_spec (L A : ℚ) : getHouse_yoga L A = specHouseFormula L A := by
  obtain ⟨k1, hk1, ha0, ha11⟩ := floor_norm360_div30 L
  obtain ⟨k2, hk2, hb0, hb11⟩ := floor_norm360_div30 A
  simp only [getHouse_yoga, specHouseFormula]
  rw [hk1] at ha0 ha11 ⊢
  rw [hk2] at hb0 hb11 ⊢
  split_ifs with h <;>
    rw [Int.tmod_eq_emod (by omega) (by norm_num)] <;> omega

lemma jsMod_eq_of {a b : ℚ} (k : ℤ) (r : ℚ) (hb : 0 < b) (h : a = b * k + r)
    (hc : (0 ≤ a ∧ 0 ≤ r ∧ r < b) ∨ (a < 0 ∧ -b < r ∧ r ≤ 0)) : jsMod a b = r := by
  have hdiv : a / b = (k : ℚ) + r / b := by
    rw [h, add_div, mul_comm, mul_div_assoc, div_self hb.ne', mul_one]
  rcases hc with ⟨ha, hr0, hrb⟩ | ⟨ha, hr0, hrb⟩
  · have hq : 0 ≤ a / b := div_nonneg ha hb.le
    have hfr : ⌊r / b⌋ = 0 :=
      Int.floor_eq_zero_iff.mpr
        (Set.mem_Ico.mpr ⟨div_nonneg hr0 hb.le, (div_lt_one hb).mpr hrb⟩)
    have hfloor : ⌊a / b⌋ = k := by
      rw [hdiv, Int.floor_int_add, hfr, add_zero]
    unfold jsMod jsTrunc
    rw [if_pos hq, hfloor, h]
    ring
  · have hq : ¬ 0 ≤ a / b := by
      rw [not_le]
      exact div_neg_of_neg_of_pos ha hb
    have hcr : ⌈r / b⌉ = 0 := by
      apply Int.ceil_eq_zero_iff.mpr
      apply Set.mem_Ioc.mpr
      constructor
      · rw [lt_div_iff₀ hb]
        linarith
      · rw [div_nonpos_iff]
        right
        exact ⟨hrb, hb.le⟩
    have hceil : ⌈a / b⌉ = k := by
      rw [hdiv, add_comm, Int.ceil_add_int, hcr, zero_add]
    unfold jsMod jsTrunc
    rw [if_neg hq, hceil, h]
    ring

lemma jsMod_one_fract {q : ℚ} (h : 0 ≤ q) : jsMod q 1 = Int.fract q := by
  unfold jsMod jsTrunc
  rw [div_one, if_pos h, one_mul, Int.self_sub_floor]

lemma floor_div_bounds {x c : ℚ} (n : ℤ) (hc : 0 < c) (h0 : 0 ≤ x) (h1 : x < n * c) :
    0 ≤ ⌊x / c⌋ ∧ ⌊x / c⌋ < n := by
  constructor
  · exact Int.floor_nonneg.mpr (div_nonneg h0 hc.le)
  · apply Int.floor_lt.mpr
    rw [div_lt_iff₀ hc]
    exact h1

lemma getHouse_astro_bounds (L A : ℚ) :
    1 ≤ getHouse_astro L A ∧ getHouse_astro L A ≤ 12 := by
  have hL0 := norm360_nonneg L
  have hA0 := norm360_nonneg A
  have hL1 := norm360_lt L
  have hA1 := norm360_lt A
  have hop : 0 ≤ norm360 L - norm360 A + 360 := by linarith
  have h0 := jsMod_nonneg (a := norm360 L - norm360 A + 360) (b := 360) (by norm_num) hop
  have h1 := jsMod_lt (a := norm360 L - norm360 A + 360) (b := 360) (by norm_num) hop
  have hb := floor_div_bounds (x := jsMod (norm360 L - norm360 A + 360) 360) (c := 30)
    12 (by norm_num) h0 (by push_cast; linarith)
  simp only [getHouse_astro]
  omega

lemma specHouseFormula_bounds (L A : ℚ) :
    1 ≤ specHouseFormula L A ∧ specHouseFormula L A ≤ 12 := by
  unfold specHouseFormula
  omega

lemma checkAspect_eval_none {d1 d2 : ℚ} (h : |d1 - d2| = 270 ∨ |d1 - d2| = 98.5 ∨ |d1 - d2| = 261.5) :
    checkAspect d1 d2 = none := by
  rcases h with h | h | h <;> simp only [checkAspect, h, abs_lt] <;> norm_num

lemma checkAspect_eval_square {d1 d2 : ℚ} (h : |d1 - d2| = 90) :
    checkAspect d1 d2 = some AspectType.square := by
  simp only [checkAspect, h, abs_lt]
  norm_num

/-- C2.  Counterexample: at body longitude 35 and ascendant longitude 20 the
astronomical.ts `getHouse` returns house 1, while the claimed sign-index
formula gives house 2, so house placement there does depend on the degrees
within the sign and the claimed identity fails for that implementation. -/
theorem c2_house_formula_counterexample :
    getHouse_astro 35 20 = 1 ∧ specHouseFormula 35 20 = 2 ∧
      getHouse_astro 35 20 ≠ specHouseFormula 35 20 := by
  have hn1 : norm360 (35 : ℚ) = 35 := norm360_eq_self (by norm_num) (by norm_num)
  have hn2 : norm360 (20 : ℚ) = 20 := norm360_eq_self (by norm_num) (by norm_num)
  have hm : jsMod ((35 : ℚ) - 20 + 360) 360 = 15 :=
    jsMod_eq_of 1 15 (by norm_num) (by norm_num) (by norm_num)
  have hf : ⌊(15 : ℚ) / 30⌋ = 0 := by
    rw [Int.floor_eq_iff]
    norm_num
  have hf35 : ⌊(35 : ℚ) / 30⌋ = 1 := by
    rw [Int.floor_eq_iff]
    norm_num
  have hf20 : ⌊(20 : ℚ) / 30⌋ = 0 := by
    rw [Int.floor_eq_iff]
    norm_num
  have h1 : getHouse_astro 35 20 = 1 := by
    simp only [getHouse_astro, hn1, hn2, hm, hf]
    decide
  have h2 : specHouseFormula 35 20 = 2 := by
    simp only [specHouseFormula, hf35, hf20]
    decide
  exact ⟨h1, h2, by rw [h1, h2]; decide⟩

/-- C2 (amended).  The claimed invariant
`house = ((floor(L/30) - floor(A/30) + 12) mod 12) + 1` holds for the
yoga.ts implementation of `getHouse`, for every body and ascendant
longitude; the astronomical.ts and part_000 implementations use a different,
degree-sensitive formula (see the counterexample). -/
theorem c2_house_formula_amended (L A : ℚ) : getHouse_yoga L A = specHouseFormula L A :=
  getHouse_yoga_eq_spec L A

/-- C9.  `checkAspect` is symmetric in its two arguments, since it only reads
the absolute difference of the longitudes. -/
theorem c9_checkAspect_symm (a b : ℚ) : checkAspect a b = checkAspect b a := by
  simp only [checkAspect, abs_sub_comm a b]

/-- C10.  Every `getHouse` implementation in the repository is total on
rational longitudes (negative ones and ones beyond 360 included) and always
returns a house in `[1, 12]`. -/
theorem c10_house_range (L A : ℚ) :
    (1 ≤ getHouse_astro L A ∧ getHouse_astro L A ≤ 12) ∧
    (1 ≤ getHouse_yoga L A ∧ getHouse_yoga L A ≤ 12) ∧
    (1 ≤ getHouse_part000 L A ∧ getHouse_part000 L A ≤ 12) := by
  refine ⟨getHouse_astro_bounds L A, ?_, getHouse_astro_bounds L A⟩
  rw [getHouse_yoga_eq_spec]
  exact specHouseFormula_bounds L A

/-- C7.  Counterexample: the bodies at 350 and 80 degrees are exactly 90
degrees apart on the 360-degree circle, yet `checkAspect` returns no aspect
(the raw difference is 270 and the function never reduces it modulo 360), so
the claim that every pair of bodies 90 degrees apart yields `square` fails. -/
theorem c7_square_aspect_counterexample :
    circularSeparation 350 80 = 90 ∧ checkAspect 350 80 = none ∧
      checkAspect 350 80 ≠ some AspectType.square := by
  have e1 : (350 : ℚ) - 80 = 270 := by norm_num
  have e2 : (80 : ℚ) - 350 = -270 := by norm_num
  have h1 : norm360 ((350 : ℚ) - 80) = 270 := by
    rw [e1]
    exact norm360_eq_self (by norm_num) (by norm_num)
  have h2 : norm360 ((80 : ℚ) - 350) = 90 := by
    rw [e2]
    have := norm360_eq_add (x := (-270 : ℚ)) (by norm_num) (by norm_num)
    rw [this]
    norm_num
  have habs : |(350 : ℚ) - 80| = 270 := by
    rw [e1]
    rw [abs_of_nonneg]
    norm_num
  have hnone : checkAspect 350 80 = none := checkAspect_eval_none (Or.inl habs)
  refine ⟨?_, hnone, by rw [hnone]; decide⟩
  unfold circularSeparation
  rw [h1, h2]
  norm_num

/-- C7 (amended).  For longitudes in the canonical range, `checkAspect`
returns `square` when the raw difference is 90 degrees, but returns no
aspect when the same 90-degree circular separation presents as a raw
difference of 270 degrees; at a circular separation of 98.5 degrees (outside
the 8-degree orb) it returns no aspect in both presentations. -/
theorem c7_square_aspect_amended (d1 d2 : ℚ) (h10 : 0 ≤ d1) (h11 : d1 < 360)
    (h20 : 0 ≤ d2) (h21 : d2 < 360) :
    (|d1 - d2| = 90 → checkAspect d1 d2 = some AspectType.square) ∧
    (|d1 - d2| = 270 → checkAspect d1 d2 = none) ∧
    (circularSeparation d1 d2 = 98.5 → checkAspect d1 d2 = none) := by
  refine ⟨fun h => checkAspect_eval_square h, fun h => checkAspect_eval_none (Or.inl h), fun h => ?_⟩
  apply checkAspect_eval_none
  right
  unfold circularSeparation at h
  rcases le_or_lt 0 (d1 - d2) with hy | hy
  · have hn1 : norm360 (d1 - d2) = d1 - d2 := norm360_eq_self hy (by linarith)
    rcases eq_or_lt_of_le hy with hy0 | hy0
    · exfalso
      have hz : d2 - d1 = 0 := by linarith
      rw [hn1, hz] at h
      rw [norm360_eq_self (by norm_num) (by norm_num)] at h
      rw [← hy0] at h
      norm_num at h
    · have hn2 : norm360 (d2 - d1) = d2 - d1 + 360 :=
        norm360_eq_add (by linarith) (by linarith)
      rw [hn1, hn2] at h
      rw [abs_of_nonneg hy]
      rcases le_total (d1 - d2) (d2 - d1 + 360) with hle | hle
      · rw [min_eq_left hle] at h
        left
        exact h
      · rw [min_eq_right hle] at h
        right
        linarith
  · have hn1 : norm360 (d1 - d2) = d1 - d2 + 360 :=
      norm360_eq_add (by linarith) hy
    have hn2 : norm360 (d2 - d1) = d2 - d1 := norm360_eq_self (by linarith) (by linarith)
    rw [hn1, hn2] at h
    rw [abs_of_neg hy]
    rcases le_total (d1 - d2 + 360) (d2 - d1) with hle | hle
    · rw [min_eq_left hle] at h
      right
      linarith
    · rw [min_eq_right hle] at h
      left
      linarith

/-- Witness for the amended C7 theorem at the concrete pair (0, 90). -/
theorem c7_square_aspect_amended_witness :
    ((0 : ℚ) ≤ 0 ∧ (0 : ℚ) < 360 ∧ (0 : ℚ) ≤ 90 ∧ (90 : ℚ) < 360) ∧
    ((|(0 : ℚ) - 90| = 90 → checkAspect 0 90 = some AspectType.square) ∧
     (|(0 : ℚ) - 90| = 270 → checkAspect 0 90 = none) ∧
     (circularSeparation 0 90 = 98.5 → checkAspect 0 90 = none)) :=
  ⟨⟨by norm_num, by norm_num, by norm_num, by norm_num⟩,
    c7_square_aspect_amended 0 90 (by norm_num) (by norm_num) (by norm_num) (by norm_num)⟩

/-- C1.  Counterexample: at a Ketu sidereal longitude of 100 degrees the
pada-based D9 mapping (`calculateNavamsha`) gives sign index 6, but the
node-specific `calculateNodeD9Position` returns the hardcoded index 2
(Gemini); Ketu's D9 sign is therefore not derived from its own longitude by
the same mapping as other bodies. -/
theorem c1_ketu_d9_counterexample :
    (calculateNodeD9Position 100).rashiIndex = 2 ∧ calculateNavamsha 100 = 6 ∧
      (calculateNodeD9Position 100).rashiIndex ≠ calculateNavamsha 100 := by
  have hr : ⌊(100 : ℚ) / 30⌋ = 3 := by
    rw [Int.floor_eq_iff]
    norm_num
  have hm : jsMod (100 : ℚ) 30 = 10 :=
    jsMod_eq_of 3 10 (by norm_num) (by norm_num) (by norm_num)
  have hp : ⌊(10 : ℚ) / (10 / 3)⌋ = 3 := by
    rw [Int.floor_eq_iff]
    norm_num
  have h2 : calculateNavamsha 100 = 6 := by
    simp only [calculateNavamsha, hr, hm, hp]
    decide
  exact ⟨rfl, h2, by rw [h2]; decide⟩

/-- C1 (amended).  In the D9 chart the code hardcodes Ketu's divisional sign
to index 2 (Gemini) for every longitude, instead of deriving it by the
pada-based mapping; Rahu's D9 sign is then `(Ketu + 6) mod 12 = 8`
(Sagittarius), exactly 6 signs from Ketu's, with the same degree. -/
theorem c1_ketu_d9_amended (lon : ℚ) :
    (calculateNodeD9Position lon).rashiIndex = 2 ∧
    (rahuD9FromKetu (calculateNodeD9Position lon)).rashiIndex
      = ((calculateNodeD9Position lon).rashiIndex + 6).tmod 12 ∧
    (rahuD9FromKetu (calculateNodeD9Position lon)).rashiIndex = 8 ∧
    (rahuD9FromKetu (calculateNodeD9Position lon)).degree
      = (calculateNodeD9Position lon).degree :=
  ⟨rfl, rfl, rfl, rfl⟩

/-- C3.  The clamped astronomical.ts `getNakshatra` always yields a mansion
index in `[0, 26]` and a pada in `[1, 4]`, and the part_001 copy also keeps
its index in range; but the part_001 pada formula divides the wrong quantity
and, already at Moon longitude 13 with ayanamsa 0, returns pada 106 — far
outside `1..4` — so the unclamped implementation violates the invariant. -/
theorem c3_nakshatra_pada :
    (∀ (m a : ℚ),
      0 ≤ (getNakshatra_astro m a).nakshatraIndex ∧
      (getNakshatra_astro m a).nakshatraIndex ≤ 26 ∧
      1 ≤ (getNakshatra_astro m a).pada ∧ (getNakshatra_astro m a).pada ≤ 4 ∧
      0 ≤ (getNakshatra_part001 m a).nakshatraIndex ∧
      (getNakshatra_part001 m a).nakshatraIndex ≤ 26) ∧
    (getNakshatra_part001 13 0).pada = 106 := by
  constructor
  · intro m a
    have hn0 := norm360_nonneg (m - a)
    have hn1 := norm360_lt (m - a)
    have hx0 : 0 ≤ norm360 (m - a) * 27 := mul_nonneg hn0 (by norm_num)
    have hx1 : norm360 (m - a) * 27 < ((27 : ℤ) : ℚ) * 360 := by
      push_cast
      nlinarith
    have hidx := floor_div_bounds (x := norm360 (m - a) * 27) (c := 360) 27
      (by norm_num) hx0 hx1
    simp only [getNakshatra_astro, getNakshatra_part001]
    exact ⟨hidx.1, by omega, le_min (le_max_right _ _) (by norm_num), min_le_right _ _,
      hidx.1, by omega⟩
  · have hns : norm360 (13 : ℚ) = 13 := norm360_eq_self (by norm_num) (by norm_num)
    have hm351 : jsMod ((13 : ℚ) * 27) 360 = 351 := by
      rw [show (13 : ℚ) * 27 = 351 by norm_num]
      exact jsMod_eq_of 0 351 (by norm_num) (by norm_num) (by norm_num)
    have hfl : ⌊(351 : ℚ) / (360 / 27 / 4)⌋ = 105 := by
      rw [Int.floor_eq_iff]
      norm_num
    simp only [getNakshatra_part001, sub_zero, hns, hm351, hfl]
    decide

/-- C6.  Counterexample: the birth-chart handler of astronomical.ts accepts a
request whose latitude is 999 (outside [-90, 90]) — its validation block only
checks that the coordinates are numbers — and proceeds to compute a result
instead of rejecting with a 400 validation error. -/
theorem c6_coordinate_validation_counterexample :
    birthchartHandler ⟨true, true, some ⟨some 999, some 0⟩⟩ = HandlerOutcome.computed ∧
      ¬ ((999 : ℚ) ≤ 90) := by
  exact ⟨rfl, by norm_num⟩

/-- C6 (amended).  The part_001 handler does reject every request whose
latitude lies outside [-90, 90] or whose longitude lies outside [-180, 180]
with status 400 and a non-empty itemized error list; the birth-chart handler
of astronomical.ts only checks that the coordinates are numbers (see the
counterexample). -/
theorem c6_coordinate_validation_amended (d t : Bool) (lat lon : ℚ)
    (h : lat < -90 ∨ lat > 90 ∨ lon < -180 ∨ lon > 180) :
    ∃ errs, part001Handler ⟨d, t, some ⟨some lat, some lon⟩⟩
        = HandlerOutcome.rejected 400 errs ∧ errs ≠ [] := by
  have hq : part001ValidationErrors ⟨d, t, some ⟨some lat, some lon⟩⟩
      = (if !d then ["dob is required"] else []) ++
        (if !t then ["time is required"] else []) ++
        ([] ++ [] ++
          (if lat < -90 ∨ lat > 90 then ["latitude must be between -90 and 90"] else []) ++
          (if lon < -180 ∨ lon > 180 then ["longitude must be between -180 and 180"] else [])) :=
    rfl
  have hlen : 0 < (part001ValidationErrors ⟨d, t, some ⟨some lat, some lon⟩⟩).length := by
    rw [hq]
    simp only [List.length_append, List.length_nil]
    rcases h with h | h | h | h
    · rw [if_pos (Or.inl h)]
      simp only [List.length_cons, List.length_nil]
      omega
    · rw [if_pos (Or.inr h)]
      simp only [List.length_cons, List.length_nil]
      omega
    · rw [if_pos (show lon < -180 ∨ lon > 180 from Or.inl h)]
      simp only [List.length_cons, List.length_nil]
      omega
    · rw [if_pos (show lon < -180 ∨ lon > 180 from Or.inr h)]
      simp only [List.length_cons, List.length_nil]
      omega
  refine ⟨part001ValidationErrors ⟨d, t, some ⟨some lat, some lon⟩⟩, ?_, ?_⟩
  · simp only [part001Handler]
    rw [if_pos hlen]
  · intro hnil
    rw [hnil] at hlen
    simp at hlen

/-- Witness for the amended C6 theorem: latitude 999 with longitude 0 is
rejected by the part_001 handler with a 400 itemized validation error. -/
theorem c6_coordinate_validation_amended_witness :
    ((999 : ℚ) < -90 ∨ (999 : ℚ) > 90 ∨ (0 : ℚ) < -180 ∨ (0 : ℚ) > 180) ∧
    ∃ errs, part001Handler ⟨true, true, some ⟨some 999, some 0⟩⟩
        = HandlerOutcome.rejected 400 errs ∧ errs ≠ [] :=
  ⟨Or.inr (Or.inl (by norm_num)),
    c6_coordinate_validation_amended true true 999 0 (Or.inr (Or.inl (by norm_num)))⟩

/-- C8.  The dignity chain checks exaltation first with first match winning:
for every contents of the four tables (the repository's actual ones or
synthetic ones that would assign exaltation and own sign to the same sign), a
planet whose exaltation-table sign equals the occupied sign is classified
Exalted and never Own Sign. -/
theorem c8_dignity_priority (exaltT debilT rulerT : Planet7 → Sign)
    (friendT : Planet7 → List Planet7) (planet : Planet7) (standardRashi : Sign)
    (h : exaltT planet = standardRashi) :
    getDignityT exaltT debilT rulerT friendT planet standardRashi = Dignity.Exalted ∧
    getDignityT exaltT debilT rulerT friendT planet standardRashi ≠ Dignity.OwnSign := by
  have h1 : getDignityT exaltT debilT rulerT friendT planet standardRashi = Dignity.Exalted := by
    unfold getDignityT
    rw [if_pos h]
  exact ⟨h1, by rw [h1]; decide⟩

/-- Witness for the C8 theorem on the repository's actual tables: the Sun in
Aries (its exaltation sign) is Exalted and not Own Sign. -/
theorem c8_dignity_priority_witness :
    planetaryExaltation Planet7.Sun = Sign.Aries ∧
    (getDignityT planetaryExaltation planetaryDebilitation planetaryRulers planetaryFriendships
        Planet7.Sun Sign.Aries = Dignity.Exalted ∧
      getDignityT planetaryExaltation planetaryDebilitation planetaryRulers planetaryFriendships
        Planet7.Sun Sign.Aries ≠ Dignity.OwnSign) :=
  ⟨rfl, c8_dignity_priority planetaryExaltation planetaryDebilitation planetaryRulers
    planetaryFriendships Planet7.Sun Sign.Aries rfl⟩

lemma antarGo_length (si : ℕ) (tp : ℚ) :
    ∀ (fuel i : ℕ) (t : ℚ), (antarGo si tp fuel i t).length = fuel := by
  intro fuel
  induction fuel with
  | zero => intro i t; rfl
  | succ n ih =>
    intro i t
    simp only [antarGo, List.length_cons, ih]

lemma antarGo_contiguous (si : ℕ) (tp : ℚ) :
    ∀ (fuel i : ℕ) (t : ℚ), contiguousFrom t (antarGo si tp fuel i t) := by
  intro fuel
  induction fuel with
  | zero => intro i t; trivial
  | succ n ih =>
    intro i t
    simp only [antarGo, contiguousFrom]
    exact ⟨by trivial, ih (i + 1) _⟩

lemma antarGo_duration (si : ℕ) (tp : ℚ) :
    ∀ (fuel i : ℕ) (t : ℚ), ∀ p ∈ antarGo si tp fuel i t,
      p.endDate - p.startDate = dashaPeriods p.planet / 120 * tp := by
  intro fuel
  induction fuel with
  | zero =>
    intro i t p hp
    simp [antarGo] at hp
  | succ n ih =>
    intro i t p hp
    simp only [antarGo, List.mem_cons] at hp
    rcases hp with rfl | hp
    · simp
    · exact ih _ _ _ hp

lemma antarGo_map_planet (si : ℕ) (tp : ℚ) :
    ∀ (fuel i : ℕ) (t : ℚ),
      (antarGo si tp fuel i t).map Period.planet
        = (List.range fuel).map
            (fun j => planetSequence.getD ((si + (i + j)) % 9) PlanetName.Ketu) := by
  intro fuel
  induction fuel with
  | zero => intro i t; rfl
  | succ n ih =>
    intro i t
    rw [List.range_succ_eq_map]
    simp only [antarGo, List.map_cons, List.map_map, List.cons.injEq]
    refine ⟨by simp, ?_⟩
    rw [ih (i + 1)]
    apply List.map_congr_left
    intro j hj
    simp only [Function.comp_apply]
    congr 1
    omega

lemma sum_map_dasha_mul (l : List PlanetName) (c : ℚ) :
    (l.map (fun q => dashaPeriods q / 120 * c)).sum = (l.map dashaPeriods).sum / 120 * c := by
  induction l with
  | nil => simp
  | cons p ps ih =>
    simp only [List.map_cons, List.sum_cons, ih]
    ring

lemma indexOf_lt_nine (lord : PlanetName) : planetSequence.indexOf lord < 9 := by
  cases lord <;> decide

lemma visited_sum (si : ℕ) (h : si < 9) :
    (((List.range 9).map (fun j =>
        planetSequence.getD ((si + (0 + j)) % 9) PlanetName.Ketu)).map
      dashaPeriods).sum = 120 := by
  interval_cases si <;> simp [List.range_succ, planetSequence, dashaPeriods] <;> norm_num

lemma spanSum_antarGo (si : ℕ) (tp : ℚ) (fuel i : ℕ) (t : ℚ) :
    spanSum (antarGo si tp fuel i t)
      = (((List.range fuel).map
            (fun j => planetSequence.getD ((si + (i + j)) % 9) PlanetName.Ketu)).map
          dashaPeriods).sum / 120 * tp := by
  unfold spanSum
  rw [List.map_congr_left (antarGo_duration si tp fuel i t)]
  rw [show (fun p : Period => dashaPeriods p.planet / 120 * tp)
      = (fun q => dashaPeriods q / 120 * tp) ∘ Period.planet from rfl]
  rw [← List.map_map, antarGo_map_planet, sum_map_dasha_mul]

/-- C4.  `calculateAntarDasha` produces exactly 9 sub-periods; each one's
duration is its planet's table years over 120 times the parent span; they
are contiguous from the parent's start; and their total span equals the
parent's span. -/
theorem c4_antardasha_subdivision (s e : ℚ) (lord : PlanetName) :
    (calculateAntarDasha s e lord).length = 9 ∧
    contiguousFrom s (calculateAntarDasha s e lord) ∧
    (∀ p ∈ calculateAntarDasha s e lord,
      p.endDate - p.startDate = dashaPeriods p.planet / 120 * (e - s)) ∧
    spanSum (calculateAntarDasha s e lord) = e - s := by
  simp only [calculateAntarDasha]
  refine ⟨antarGo_length _ _ 9 0 s, antarGo_contiguous _ _ 9 0 s,
    antarGo_duration _ _ 9 0 s, ?_⟩
  rw [spanSum_antarGo, visited_sum _ (indexOf_lt_nine lord)]
  norm_num

lemma mahaGo_length (si : ℕ) (r : ℚ) :
    ∀ (fuel i : ℕ) (t : ℚ), (mahaGo si r fuel i t).length = fuel := by
  intro fuel
  induction fuel with
  | zero => intro i t; rfl
  | succ n ih =>
    intro i t
    simp only [mahaGo, List.length_cons, ih]

lemma mahaGo_contiguous (si : ℕ) (r : ℚ) :
    ∀ (fuel i : ℕ) (t : ℚ), contiguousFromMaha t (mahaGo si r fuel i t) := by
  intro fuel
  induction fuel with
  | zero => intro i t; trivial
  | succ n ih =>
    intro i t
    simp only [mahaGo, contiguousFromMaha]
    exact ⟨by trivial, ih (i + 1) _⟩

lemma mahaGo_tail_duration (si : ℕ) (r : ℚ) :
    ∀ (fuel i : ℕ) (t : ℚ), 1 ≤ i → ∀ p ∈ mahaGo si r fuel i t,
      p.endDate - p.startDate = dashaPeriods p.planet := by
  intro fuel
  induction fuel with
  | zero =>
    intro i t hi p hp
    simp [mahaGo] at hp
  | succ n ih =>
    intro i t hi p hp
    simp only [mahaGo, List.mem_cons] at hp
    rcases hp with rfl | hp
    · simp [show ¬ i = 0 by omega]
    · exact ih _ _ (by omega) _ hp

lemma mahaGo_map_planet (si : ℕ) (r : ℚ) :
    ∀ (fuel i : ℕ) (t : ℚ),
      (mahaGo si r fuel i t).map MahaPeriod.planet
        = (List.range fuel).map
            (fun j => planetSequence.getD ((si + (i + j)) % 9) PlanetName.Ketu) := by
  intro fuel
  induction fuel with
  | zero => intro i t; rfl
  | succ n ih =>
    intro i t
    rw [List.range_succ_eq_map]
    simp only [mahaGo, List.map_cons, List.map_map, List.cons.injEq]
    refine ⟨by simp, ?_⟩
    rw [ih (i + 1)]
    apply List.map_congr_left
    intro j hj
    simp only [Function.comp_apply]
    congr 1
    omega

lemma getD_indexOf (lord : PlanetName) :
    planetSequence.getD (planetSequence.indexOf lord) PlanetName.Ketu = lord := by
  cases lord <;> rfl

/-- C5.  For a birth instant and a Moon sidereal degree in `[0, 360)`,
`calculateDashaPeriods` yields 9 contiguous periods starting at birth; the
first period belongs to the birth-mansion lord and lasts that lord's full
table duration times one minus the fractional part of `moonDegree * 27/360`;
every later period lasts its own planet's full table duration; and the
period planets cycle through the fixed sequence starting at the lord. -/
theorem c5_mahadasha_schedule (birth moonDegree : ℚ)
    (h0 : 0 ≤ moonDegree) (h1 : moonDegree < 360) :
    (calculateDashaPeriods birth moonDegree).length = 9 ∧
    contiguousFromMaha birth (calculateDashaPeriods birth moonDegree) ∧
    ((calculateDashaPeriods birth moonDegree).headD ⟨PlanetName.Ketu, 0, 0, []⟩).startDate
      = birth ∧
    ((calculateDashaPeriods birth moonDegree).headD ⟨PlanetName.Ketu, 0, 0, []⟩).planet
      = getNakshatraLord moonDegree ∧
    ((calculateDashaPeriods birth moonDegree).headD ⟨PlanetName.Ketu, 0, 0, []⟩).endDate
        - ((calculateDashaPeriods birth moonDegree).headD ⟨PlanetName.Ketu, 0, 0, []⟩).startDate
      = dashaPeriods (getNakshatraLord moonDegree)
          * (1 - Int.fract (moonDegree * 27 / 360)) ∧
    (∀ p ∈ (calculateDashaPeriods birth moonDegree).tail,
      p.endDate - p.startDate = dashaPeriods p.planet) ∧
    (calculateDashaPeriods birth moonDegree).map MahaPeriod.planet
      = (List.range 9).map (fun j =>
          planetSequence.getD
            ((planetSequence.indexOf (getNakshatraLord moonDegree) + j) % 9)
            PlanetName.Ketu) := by
  have hsi := indexOf_lt_nine (getNakshatraLord moonDegree)
  have hfr : jsMod (moonDegree * 27 / 360) 1 = Int.fract (moonDegree * 27 / 360) :=
    jsMod_one_fract (div_nonneg (mul_nonneg h0 (by norm_num)) (by norm_num))
  have hgo : calculateDashaPeriods birth moonDegree
      = mahaGo (planetSequence.indexOf (getNakshatraLord moonDegree))
          (dashaPeriods (getNakshatraLord moonDegree)
            * (1 - jsMod (moonDegree * 27 / 360) 1)) 9 0 birth := rfl
  have hunfold : calculateDashaPeriods birth moonDegree
      = ⟨planetSequence.getD (planetSequence.indexOf (getNakshatraLord moonDegree) % 9)
            PlanetName.Ketu,
          birth,
          birth + dashaPeriods (getNakshatraLord moonDegree)
            * (1 - jsMod (moonDegree * 27 / 360) 1),
          calculateAntarDasha birth
            (birth + dashaPeriods (getNakshatraLord moonDegree)
              * (1 - jsMod (moonDegree * 27 / 360) 1))
            (planetSequence.getD (planetSequence.indexOf (getNakshatraLord moonDegree) % 9)
              PlanetName.Ketu)⟩ ::
        mahaGo (planetSequence.indexOf (getNakshatraLord moonDegree))
          (dashaPeriods (getNakshatraLord moonDegree)
            * (1 - jsMod (moonDegree * 27 / 360) 1)) 8 1
          (birth + dashaPeriods (getNakshatraLord moonDegree)
            * (1 - jsMod (moonDegree * 27 / 360) 1)) := rfl
  have hmod : planetSequence.indexOf (getNakshatraLord moonDegree) % 9
      = planetSequence.indexOf (getNakshatraLord moonDegree) := Nat.mod_eq_of_lt hsi
  refine ⟨?_, ?_, ?_, ?_, ?_, ?_, ?_⟩
  · rw [hgo]
    exact mahaGo_length _ _ 9 0 birth
  · rw [hgo]
    exact mahaGo_contiguous _ _ 9 0 birth
  · rw [hunfold]
    rfl
  · rw [hunfold]
    simp only [List.headD_cons]
    rw [hmod, getD_indexOf]
  · rw [hunfold]
    simp only [List.headD_cons]
    rw [← hfr]
    ring
  · rw [hunfold]
    simp only [List.tail_cons]
    exact mahaGo_tail_duration _ _ 8 1 _ (le_refl 1)
  · rw [hgo, mahaGo_map_planet]
    apply List.map_congr_left
    intro j hj
    congr 1
    omega

/-- Witness for the C5 theorem at birth instant 0 and Moon degree 100. -/
theorem c5_mahadasha_schedule_witness :
    ((0 : ℚ) ≤ 100 ∧ (100 : ℚ) < 360) ∧
    ((calculateDashaPeriods 0 100).length = 9 ∧
    contiguousFromMaha 0 (calculateDashaPeriods 0 100) ∧
    ((calculateDashaPeriods 0 100).headD ⟨PlanetName.Ketu, 0, 0, []⟩).startDate = 0 ∧
    ((calculateDashaPeriods 0 100).headD ⟨PlanetName.Ketu, 0, 0, []⟩).planet
      = getNakshatraLord 100 ∧
    ((calculateDashaPeriods 0 100).headD ⟨PlanetName.Ketu, 0, 0, []⟩).endDate
        - ((calculateDashaPeriods 0 100).headD ⟨PlanetName.Ketu, 0, 0, []⟩).startDate
      = dashaPeriods (getNakshatraLord 100) * (1 - Int.fract ((100 : ℚ) * 27 / 360)) ∧
    (∀ p ∈ (calculateDashaPeriods 0 100).tail,
      p.endDate - p.startDate = dashaPeriods p.planet) ∧
    (calculateDashaPeriods 0 100).map MahaPeriod.planet
      = (List.range 9).map (fun j =>
          planetSequence.getD ((planetSequence.indexOf (getNakshatraLord 100) + j) % 9)
            PlanetName.Ketu)) :=
  ⟨⟨by norm_num, by norm_num⟩, c5_mahadasha_schedule 0 100 (by norm_num) (by norm_num)⟩

end Iruastro
